import Mathlib

/-!
Shallow embedding of the SkyShield frontend map component
(`AQMapSection` and its helpers, file `src/unnamed/part_001`) together
with `LegendControl` (second file of the `src/frontend/components/Navbar.jsx`
bundle), and proofs about their behaviour.

Pure JavaScript helper functions become Lean functions; React effects
and Leaflet event subscriptions become explicit state passing over
small state types. JavaScript string methods (`trim`, `toLowerCase`,
`includes`, numeric coercion) are modelled structurally over the
character list of a Lean `String`, following the ECMAScript
definitions restricted to the shapes the component can produce.
-/

namespace SkyShield

/-! ## JavaScript string primitives -/

/-- ECMAScript `String.prototype.trim` on a character list: drop
whitespace from both ends. -/
def jsTrimList (cs : List Char) : List Char :=
  ((cs.dropWhile Char.isWhitespace).reverse.dropWhile Char.isWhitespace).reverse

/-- ECMAScript `String.prototype.trim`. -/
def jsTrim (s : String) : String := ⟨jsTrimList s.data⟩

/-- ECMAScript `String.prototype.toLowerCase` (ASCII case folding,
which covers every name in the directory). -/
def jsToLower (s : String) : String := ⟨s.data.map Char.toLower⟩

/-- Substring occurrence on character lists: `listIncludes needle hay`
is true when `needle` occurs contiguously inside `hay`. -/
def listIncludes (needle : List Char) : List Char → Bool
  | [] => needle.isEmpty
  | c :: rest => needle.isPrefixOf (c :: rest) || listIncludes needle rest

/-- ECMAScript `String.prototype.includes`. -/
def jsIncludes (hay needle : String) : Bool := listIncludes needle.data hay.data

/-- Parse a non-empty all-digit character list as a natural number;
any other list gives `none`. -/
def parseNatList (cs : List Char) : Option Nat :=
  if cs.isEmpty then none
  else cs.foldl (fun acc c =>
    match acc with
    | some a => if c.isDigit then some (a * 10 + (c.toNat - 48)) else none
    | none => none) (some 0)

/-- ECMAScript `ToNumber` on a string, restricted to optionally signed
decimal integer literals; `none` stands for `NaN`. A string of only
whitespace coerces to `0`; any string that fails to parse as a number
coerces to `NaN`. -/
def jsStringToNumber (s : String) : Option Int :=
  match jsTrimList s.data with
  | [] => some 0
  | '-' :: rest => (parseNatList rest).map (fun n => -(n : Int))
  | '+' :: rest => (parseNatList rest).map (fun n => (n : Int))
  | cs => (parseNatList cs).map (fun n => (n : Int))

/-! ## The AQI classifier `getColor` (src/unnamed/part_001, lines 13-20)

```js
const getColor = (aqi) => {
  if (aqi <= 50) return "green";
  if (aqi <= 100) return "yellow";
  if (aqi <= 150) return "orange";
  if (aqi <= 200) return "red";
  if (aqi <= 300) return "purple";
  return "maroon";
};
```
-/

/-- Direct embedding of `getColor` on numeric (integer) inputs. -/
def getColor (aqi : Int) : String :=
  if aqi ≤ 50 then "green"
  else if aqi ≤ 100 then "yellow"
  else if aqi ≤ 150 then "orange"
  else if aqi ≤ 200 then "red"
  else if aqi ≤ 300 then "purple"
  else "maroon"

/-- Severity index of each color band, following the band ordering
Good < Moderate < SensitiveUnhealthy < Unhealthy < VeryUnhealthy <
Hazardous (green, yellow, orange, red, purple, maroon). -/
def colorSeverity : String → Nat
  | "green" => 0
  | "yellow" => 1
  | "orange" => 2
  | "red" => 3
  | "purple" => 4
  | "maroon" => 5
  | _ => 6

/-! ## JavaScript value semantics for the classifier input

`getColor` is called as `getColor(loc.aqi)`, where `loc.aqi` may be a
number, `undefined` (an absent field), or a string. A JavaScript
comparison `x <= k` first coerces `x` to a number; `undefined` and
strings that do not denote a number coerce to `NaN`, and every
comparison against `NaN` is `false`, so such inputs fall through every
branch to `"maroon"`. -/

/-- A JavaScript value that can reach the classifier: a number, the
absent value `undefined`, or a string. -/
inductive JSVal : Type
  | num (n : Int)
  | undef
  | str (s : String)
deriving DecidableEq

/-- ECMAScript `ToNumber`, restricted to the value shapes above;
`none` stands for `NaN`. -/
def jsToNumber : JSVal → Option Int
  | .num n => some n
  | .undef => none
  | .str s => jsStringToNumber s

/-- JavaScript comparison `v <= k` for a number `k`: coerce `v` to a
number; a `NaN` operand makes the comparison `false`. -/
def jsLe (v : JSVal) (k : Int) : Bool :=
  match jsToNumber v with
  | some n => decide (n ≤ k)
  | none => false

/-- `getColor` under full JavaScript comparison semantics. -/
def getColorJS (v : JSVal) : String :=
  if jsLe v 50 then "green"
  else if jsLe v 100 then "yellow"
  else if jsLe v 150 then "orange"
  else if jsLe v 200 then "red"
  else if jsLe v 300 then "purple"
  else "maroon"

/-! ## Locations and the main component state -/

/-- One entry of the Location Directory, as consumed by
`AQMapSection`: `name`, coordinates and the AQI reading. Coordinate
values are opaque to the logic proved here, so they are carried as
integers. -/
structure Location : Type where
  name : String
  lat : Int
  lon : Int
  aqi : Int
deriving DecidableEq

/-- Directory entry used by the concrete search examples. -/
def newDelhi : Location := { name := "New Delhi", lat := 28, lon := 77, aqi := 180 }

/-- Second directory entry used by the concrete search examples. -/
def delhiHeights : Location := { name := "Delhi Heights", lat := 28, lon := 77, aqi := 95 }

/-! ## The viewport synchronizer (src/unnamed/part_001, lines 39-56)

```js
const setCenter = () => {
  const center = map.getCenter();
  setMiniCenter([center.lat, center.lng]);
  setMiniZoom(Math.max(1, Math.min(7, map.getZoom() - 2)));
  if (miniMapRef.current && miniMapRef.current.setView) {
    miniMapRef.current.setView([center.lat, center.lng],
      Math.max(1, Math.min(7, map.getZoom() - 2)), { animate: false });
  }
};
setCenter();
map.on("move", setCenter);
map.on("zoomend", setCenter);
return () => {
  map.off("move", setCenter);
  map.off("zoomend", setCenter);
};
```
-/

/-- A map viewport: a center (latitude, longitude) and a zoom level. -/
structure Viewport : Type where
  lat : Int
  lng : Int
  zoom : Int
deriving DecidableEq

/-- The mini-map zoom computed by `setCenter`:
`Math.max(1, Math.min(7, zoom - 2))`. -/
def miniZoomOf (z : Int) : Int := max 1 (min 7 (z - 2))

/-- The overview viewport produced by one run of `setCenter` from the
primary viewport: same center, zoom `Math.max(1, Math.min(7, z - 2))`. -/
def setCenterSync (p : Viewport) : Viewport :=
  { lat := p.lat, lng := p.lng, zoom := miniZoomOf p.zoom }

/-- Modelled from the spec wording, for comparison with the code:
`clamp(v, lo, hi)` keeps `v` inside `[lo, hi]`. -/
def clampSpec (v lo hi : Int) : Int :=
  if v < lo then lo else if hi < v then hi else v

/-- Modelled from the spec wording, for comparison with the code: the
overview viewport keeps the primary center and clamps `zoom - 2` into
`[1, 7]`. -/
def overviewSpec (p : Viewport) : Viewport :=
  { lat := p.lat, lng := p.lng, zoom := clampSpec (p.zoom - 2) 1 7 }

/-! ## Leaflet event registration for the synchronizer

Leaflet keeps, per map, a list of (event name, handler) registrations;
`on` appends one, `off` removes the registrations with that exact event
name and handler reference, and an event invokes each handler
registered for its name. Handlers are identified by reference, modelled
as a `Nat` id: each run of the effect creates one fresh `setCenter`
closure used for both `on` calls and both `off` calls. -/

/-- `map.on(ev, h)`: append one registration. -/
def mapOn (ls : List (String × Nat)) (ev : String) (h : Nat) : List (String × Nat) :=
  ls ++ [(ev, h)]

/-- `map.off(ev, h)`: drop the registrations for that event with that
handler reference. -/
def mapOff (ls : List (String × Nat)) (ev : String) (h : Nat) : List (String × Nat) :=
  ls.filter (fun r => !(r.1 == ev && r.2 == h))

/-- The subscriptions performed by the synchronizer effect body:
`map.on("move", setCenter); map.on("zoomend", setCenter)`. -/
def syncSubscribe (ls : List (String × Nat)) (h : Nat) : List (String × Nat) :=
  mapOn (mapOn ls "move" h) "zoomend" h

/-- The effect cleanup returned to React:
`map.off("move", setCenter); map.off("zoomend", setCenter)`. -/
def syncCleanup (ls : List (String × Nat)) (h : Nat) : List (String × Nat) :=
  mapOff (mapOff ls "move" h) "zoomend" h

/-- The handlers a fired event `ev` invokes, in registration order. -/
def firedHandlers (ls : List (String × Nat)) (ev : String) : List Nat :=
  (ls.filter (fun r => r.1 == ev)).map Prod.snd

/-! ## The legend overlay (LegendControl, in the Navbar.jsx bundle)

```js
useEffect(() => {
  if (!map) return;
  import("leaflet").then(L => {
    const legend = L.control({ position: "bottomright" });
    legend.onAdd = () => { ... };
    legend.addTo(map);
    return () => legend.remove();
  });
}, [map]);
```

The world is the list of map ids that currently carry a legend added
by this control (one entry per attached legend; duplicates mean
duplicate overlays). The `return () => legend.remove()` is the return
value of the `.then` callback: the Promise machinery receives and
discards it. The arrow function passed to `useEffect` itself has no
`return` statement after scheduling the promise, so the value React
receives as the effect cleanup is `undefined`. -/

/-- The body of the `.then` callback: attach the legend to the map and
produce the remover closure (which goes to the Promise, not to React). -/
def legendPromiseThen (w : List Nat) (m : Nat) : List Nat × (List Nat → List Nat) :=
  (w ++ [m], fun w2 => w2.erase m)

/-- The `useEffect` body of `LegendControl`: early return when the map
is not yet available; otherwise schedule the promise that attaches the
legend. In both branches the value returned to React is `undefined`
(`none`): the remover built inside `.then` never reaches React. -/
def legendEffect (w : List Nat) (m? : Option Nat) : List Nat × Option (List Nat → List Nat) :=
  match m? with
  | none => (w, none)
  | some m => ((legendPromiseThen w m).1, none)

/-- React effect state: the world plus the cleanup React is holding for
the previous effect run. -/
abbrev EffState : Type := List Nat × Option (List Nat → List Nat)

/-- Run the cleanup React holds, if any. -/
def runCleanup (s : EffState) : List Nat :=
  match s.2 with
  | some c => c s.1
  | none => s.1

/-- One dependency change of the `[map]` effect: React runs the stored
cleanup, then runs the effect again and stores its returned cleanup. -/
def legendStep (s : EffState) (m? : Option Nat) : EffState :=
  legendEffect (runCleanup s) m?

/-- Unmount: React runs the stored cleanup and the component is gone. -/
def legendUnmount (s : EffState) : List Nat := runCleanup s

/-! ## Data loading and rendering (src/unnamed/part_001, lines 58-68)

```js
fetchAirQuality()
  .then(data => { setLocations(data.locations || []); })
  .catch(err => console.error(err))
  .finally(() => setLoading(false));
...
if (loading) return <div ...>Loading map...</div>;
if (!locations.length) return <div ...>No data available.</div>;
const center = [locations[0].lat, locations[0].lon];
... {L && locations.map((loc, i) => ...)} ...
```
-/

/-- The component state touched by the load effect. -/
structure AQState : Type where
  locations : List Location
  loading : Bool
deriving DecidableEq

/-- A `console.error` call. -/
inductive LogEvent : Type
  | logged (err : String)
deriving DecidableEq

/-- Settling of the `fetchAirQuality` promise chain: on success, the
`locations` field of the payload (or `[]` when absent) is stored; on
failure, the error is logged by `catch` and the directory is left
unchanged; `finally` clears the loading flag on both paths. The
handler itself always returns normally. -/
def applyLoadResult (s : AQState) (r : Except String (Option (List Location))) :
    AQState × List LogEvent :=
  match r with
  | .ok locs? => ({ locations := locs?.getD [], loading := false }, [])
  | .error e => ({ locations := s.locations, loading := false }, [.logged e])

/-- What `AQMapSection` renders. -/
inductive RenderState : Type
  | loadingView
  | noData
  | mapView (markers : Nat)
deriving DecidableEq

/-- The early-return cascade of `AQMapSection`: the loading view while
`loading` holds, the explicit no-data view when the directory is
empty, and otherwise the map with one marker per location (markers are
built only once the dynamic leaflet import has landed). -/
def render (loading leafletLoaded : Bool) (locations : List Location) : RenderState :=
  if loading then .loadingView
  else if locations.length == 0 then .noData
  else .mapView (if leafletLoaded then locations.length else 0)

/-- Number of markers a render state carries. -/
def markersOf : RenderState → Nat
  | .mapView n => n
  | _ => 0

/-! ## Search (src/unnamed/part_001, lines 72-81)

```js
const handleSearch = () => {
  const qRaw = (search || "").trim();
  if (!qRaw) return;
  const q = qRaw.toLowerCase();
  const found = locations.find(l => (l.name || "").toLowerCase().includes(q));
  if (found && map) {
    map.flyTo([found.lat, found.lon], 8, { animate: true });
    onSelect && onSelect(found);
  }
};
```
-/

/-- An observable action of `handleSearch`: the animated `flyTo`
command to the primary map, or the `onSelect` callback invocation. -/
inductive MapAction : Type
  | flyTo (lat lon zoom : Int)
  | select (loc : Location)
deriving DecidableEq

/-- The predicate passed to `locations.find`: the case-folded name of
the location contains `q` as a substring. -/
def nameMatches (q : String) (l : Location) : Bool :=
  jsIncludes (jsToLower l.name) q

/-- `handleSearch`, as the list of actions it performs given the query
text, the directory and whether the primary map handle is non-null. -/
def handleSearch (search : String) (locations : List Location) (mapAvailable : Bool) :
    List MapAction :=
  let qRaw := jsTrim search
  if qRaw.data.isEmpty then []
  else
    let q := jsToLower qRaw
    match locations.find? (fun l => nameMatches q l) with
    | some found =>
        if mapAvailable then [.flyTo found.lat found.lon 8, .select found] else []
    | none => []

/-! ## Helper lemmas -/

/-- `find?` over a split list returns the head of the suffix when
nothing before it satisfies the predicate and it does. -/
theorem find?_append_first {α : Type} (p : α → Bool) (pre post : List α) (a : α)
    (hpre : ∀ x ∈ pre, p x = false) (ha : p a = true) :
    (pre ++ a :: post).find? p = some a := by
  induction pre with
  | nil => simp [List.find?_cons, ha]
  | cons x xs ih =>
      have hx : p x = false := hpre x (by simp)
      simp only [List.cons_append, List.find?_cons, hx]
      exact ih (fun y hy => hpre y (by simp [hy]))

/-- `miniZoomOf` agrees with the spec-style clamp. -/
theorem miniZoomOf_eq_clamp (z : Int) : miniZoomOf z = clampSpec (z - 2) 1 7 := by
  unfold miniZoomOf clampSpec
  split_ifs <;> omega

/-! ## Claim theorems -/

/-- Claim C1: one run of the synchronizer recomputes the overview
viewport as a pure function of the primary viewport: the center is
kept and the zoom is `clamp(zoom - 2, 1, 7)`; in particular primary
zoom 6 gives overview zoom 4, primary zoom 2 gives 1, and primary
zoom 10 gives 7. -/
theorem overview_viewport_sync (p : Viewport) :
    setCenterSync p = overviewSpec p ∧
    (setCenterSync p).lat = p.lat ∧
    (setCenterSync p).lng = p.lng ∧
    (setCenterSync p).zoom = clampSpec (p.zoom - 2) 1 7 ∧
    miniZoomOf 6 = 4 ∧ miniZoomOf 2 = 1 ∧ miniZoomOf 10 = 7 := by
  refine ⟨?_, rfl, rfl, ?_, by decide, by decide, by decide⟩
  · unfold setCenterSync overviewSpec
    simp [miniZoomOf_eq_clamp]
  · exact miniZoomOf_eq_clamp p.zoom

/-- Claim C2: `getColor` is a total function of its integer input and
returns each color exactly on its band: green iff aqi ≤ 50, yellow iff
50 < aqi ≤ 100, orange iff 100 < aqi ≤ 150, red iff 150 < aqi ≤ 200,
purple iff 200 < aqi ≤ 300, maroon iff aqi > 300. -/
theorem getColor_band_characterization (aqi : Int) :
    (getColor aqi = "green" ↔ aqi ≤ 50) ∧
    (getColor aqi = "yellow" ↔ (50 < aqi ∧ aqi ≤ 100)) ∧
    (getColor aqi = "orange" ↔ (100 < aqi ∧ aqi ≤ 150)) ∧
    (getColor aqi = "red" ↔ (150 < aqi ∧ aqi ≤ 200)) ∧
    (getColor aqi = "purple" ↔ (200 < aqi ∧ aqi ≤ 300)) ∧
    (getColor aqi = "maroon" ↔ 300 < aqi) := by
  unfold getColor
  split_ifs with h1 h2 h3 h4 h5 <;>
    refine ⟨?_, ?_, ?_, ?_, ?_, ?_⟩ <;> simp <;> omega

/-- Claim C3: `getColor` is monotone: a strictly smaller AQI never
receives a strictly more severe color band, under the ordering
green < yellow < orange < red < purple < maroon. -/
theorem getColor_monotone (a b : Int) (h : a < b) :
    colorSeverity (getColor a) ≤ colorSeverity (getColor b) := by
  unfold getColor
  split_ifs <;> simp [colorSeverity] <;> omega

/-- Witness for C3 at a concrete pair. -/
theorem getColor_monotone_witness :
    (10 : Int) < 500 ∧ colorSeverity (getColor 10) ≤ colorSeverity (getColor 500) :=
  ⟨by decide, getColor_monotone 10 500 (by decide)⟩

/-- Claim C4: under JavaScript comparison semantics the classifier is
total — every input lands in one of the six colors — and every input
whose numeric coercion is `NaN` (the absent value `undefined`, and
every non-numeric string) falls through to the maroon fallback; on
actual numbers it agrees with the integer classifier. -/
theorem getColorJS_total_and_fallback (v : JSVal) :
    (getColorJS v = "green" ∨ getColorJS v = "yellow" ∨ getColorJS v = "orange" ∨
      getColorJS v = "red" ∨ getColorJS v = "purple" ∨ getColorJS v = "maroon") ∧
    (jsToNumber v = none → getColorJS v = "maroon") ∧
    (∀ n : Int, v = JSVal.num n → getColorJS v = getColor n) := by
  refine ⟨?_, ?_, ?_⟩
  · unfold getColorJS
    split_ifs <;> simp
  · intro hnone
    simp [getColorJS, jsLe, hnone]
  · intro n hv
    subst hv
    simp only [getColorJS, getColor, jsLe, jsToNumber]
    split_ifs <;> simp_all

/-- Witness for C4: the non-numeric string "abc" and the absent value
both classify as maroon. -/
theorem getColorJS_total_and_fallback_witness :
    jsToNumber (JSVal.str "abc") = none ∧ getColorJS (JSVal.str "abc") = "maroon" ∧
    getColorJS JSVal.undef = "maroon" :=
  ⟨by decide,
   (getColorJS_total_and_fallback (JSVal.str "abc")).2.1 (by decide),
   (getColorJS_total_and_fallback JSVal.undef).2.1 (by decide)⟩

/-- Claim C5: with the primary map available, a query whose trimmed
form is empty is a no-op; otherwise search selects the first directory
entry (in list order) whose case-folded name contains the case-folded
trimmed query, flies the primary map to its coordinates at zoom 8 and
emits exactly that location; concretely, with "New Delhi" before
"Delhi Heights", searching "delhi" selects "New Delhi". -/
theorem handleSearch_first_match (q : String) (locs pre post : List Location) (f : Location) :
    ((jsTrim q).data.isEmpty = true → handleSearch q locs true = []) ∧
    ((jsTrim q).data.isEmpty = false →
      locs = pre ++ f :: post →
      (∀ x ∈ pre, nameMatches (jsToLower (jsTrim q)) x = false) →
      nameMatches (jsToLower (jsTrim q)) f = true →
      handleSearch q locs true =
        [MapAction.flyTo f.lat f.lon 8, MapAction.select f]) ∧
    handleSearch "delhi" [newDelhi, delhiHeights] true =
      [MapAction.flyTo newDelhi.lat newDelhi.lon 8, MapAction.select newDelhi] := by
  refine ⟨?_, ?_, by rfl⟩
  · intro hq
    simp [handleSearch, hq]
  · intro hq hsplit hpre hf
    subst hsplit
    simp only [handleSearch, hq, Bool.false_eq_true, if_false,
      find?_append_first (fun l => nameMatches (jsToLower (jsTrim q)) l) pre post f hpre hf,
      if_true]

/-- Witness for C5 on the two-entry directory, via the first-match
clause at query "delhi". -/
theorem handleSearch_first_match_witness :
    (jsTrim "delhi").data.isEmpty = false ∧
    handleSearch "delhi" [newDelhi, delhiHeights] true =
      [MapAction.flyTo newDelhi.lat newDelhi.lon 8, MapAction.select newDelhi] :=
  ⟨by decide,
   (handleSearch_first_match "delhi" [newDelhi, delhiHeights] [] [delhiHeights] newDelhi).2.1
     (by decide) rfl (by simp) (by decide)⟩

/-- Counterexample to Claim C6 as stated: the synchronizer effect
registers a listener for the intermediate-frame event "move" and
registers none for the pan-end event "moveend", so it does not
subscribe only to pan-end and zoom-end notifications. -/
theorem sync_subscribes_to_move_not_pan_end :
    ("move", 0) ∈ syncSubscribe [] 0 ∧ ("moveend", 0) ∉ syncSubscribe [] 0 := by
  decide

/-- Claim C6 (amended): the synchronizer subscribes exactly to the
primary map events "move" and "zoomend", so the overview viewport is
recomputed on every move notification — including intermediate drag
frames — and on zoom completion; a moveend notification alone invokes
no handler of this effect. -/
theorem sync_subscription_events (ls : List (String × Nat)) (h : Nat) :
    syncSubscribe ls h = ls ++ [("move", h), ("zoomend", h)] ∧
    firedHandlers (syncSubscribe [] h) "move" = [h] ∧
    firedHandlers (syncSubscribe [] h) "zoomend" = [h] ∧
    firedHandlers (syncSubscribe [] h) "moveend" = [] := by
  refine ⟨?_, ?_, ?_, ?_⟩ <;> simp [syncSubscribe, mapOn, firedHandlers]

/-- Claim C7: the effect cleanup removes exactly the registrations the
effect added: for a handler reference fresh to the map, running the
cleanup after the subscription restores the registration list, and no
event fired afterwards invokes that handler again. -/
theorem sync_teardown_unsubscribes (ls : List (String × Nat)) (h : Nat)
    (hfresh : ∀ r ∈ ls, r.2 ≠ h) :
    syncCleanup (syncSubscribe ls h) h = ls ∧
    ∀ ev, h ∉ firedHandlers (syncCleanup (syncSubscribe ls h) h) ev := by
  have hkeep : ∀ ev, ls.filter (fun r => !(r.1 == ev && r.2 == h)) = ls := by
    intro ev
    apply List.filter_eq_self.mpr
    intro r hr
    have := hfresh r hr
    simp [this]
  have hclean : syncCleanup (syncSubscribe ls h) h = ls := by
    unfold syncCleanup syncSubscribe mapOn mapOff
    simp only [List.filter_append, hkeep]
    simp
  refine ⟨hclean, ?_⟩
  intro ev hmem
  rw [hclean] at hmem
  simp only [firedHandlers, List.mem_map, List.mem_filter] at hmem
  obtain ⟨r, ⟨hr, _⟩, hsnd⟩ := hmem
  exact hfresh r hr hsnd

/-- Witness for C7 on an initially empty registration list. -/
theorem sync_teardown_unsubscribes_witness :
    syncCleanup (syncSubscribe [] 0) 0 = [] ∧
    0 ∉ firedHandlers (syncCleanup (syncSubscribe [] 0) 0) "move" :=
  ⟨(sync_teardown_unsubscribes [] 0 (by simp)).1,
   (sync_teardown_unsubscribes [] 0 (by simp)).2 "move"⟩

/-- Claim C8 is violated by the code: in the scenario mount-with-map-1
then replace-with-map-2 then unmount, both legends remain attached at
the end — the remover closure is returned to the Promise, not to
React, so no cleanup ever runs and overlays accumulate instead of
there being at most one. -/
theorem legend_cleanup_lost :
    legendUnmount (legendStep (legendStep (([], none) : EffState) (some 1)) (some 2)) = [1, 2] ∧
    (legendUnmount (legendStep (legendStep (([], none) : EffState) (some 1)) (some 2))).length = 2 :=
  ⟨rfl, rfl⟩

/-- Claim C9: when the directory is empty — in particular after a load
failure, which is logged by `catch` and absorbed (the handler returns
normally, the directory stays empty, `finally` clears the loading
flag) — the component renders the explicit no-data view and builds
zero markers, never entering the per-location rendering path. -/
theorem empty_directory_no_markers (s : AQState) (e : String) (lf : Bool)
    (hempty : s.locations = []) :
    (applyLoadResult s (Except.error e)).1.locations = [] ∧
    (applyLoadResult s (Except.error e)).1.loading = false ∧
    (applyLoadResult s (Except.error e)).2 = [LogEvent.logged e] ∧
    render (applyLoadResult s (Except.error e)).1.loading lf
      (applyLoadResult s (Except.error e)).1.locations = RenderState.noData ∧
    (∀ locs : List Location, locs = [] →
      render false lf locs = RenderState.noData ∧ markersOf (render false lf locs) = 0) := by
  refine ⟨by simp [applyLoadResult, hempty], rfl, rfl, ?_, ?_⟩
  · simp [applyLoadResult, hempty, render]
  · intro locs hl
    subst hl
    simp [render, markersOf]

/-- Witness for C9 at a concrete failed load over the empty directory. -/
theorem empty_directory_no_markers_witness :
    (applyLoadResult ⟨[], true⟩ (Except.error "network error")).1.locations = [] ∧
    render false true ([] : List Location) = RenderState.noData :=
  ⟨(empty_directory_no_markers ⟨[], true⟩ "network error" true rfl).1,
   ((empty_directory_no_markers ⟨[], true⟩ "network error" true rfl).2.2.2.2 [] rfl).1⟩

/-- Claim C10: with a non-empty query that matches some directory
entry, a null primary map handle makes search perform nothing at all:
no flyTo and no selection emission. -/
theorem search_noop_without_map (q : String) (locs : List Location)
    (hq : (jsTrim q).data.isEmpty = false)
    (_hmatch : (locs.find? (fun l => nameMatches (jsToLower (jsTrim q)) l)).isSome = true) :
    handleSearch q locs false = [] := by
  simp only [handleSearch, hq, Bool.false_eq_true, if_false]
  cases hfind : locs.find? (fun l => nameMatches (jsToLower (jsTrim q)) l) <;> simp [hfind]

/-- Witness for C10: the query "delhi" matches the one-entry directory
but the map handle is null, so nothing happens. -/
theorem search_noop_without_map_witness :
    (jsTrim "delhi").data.isEmpty = false ∧
    ([newDelhi].find? (fun l => nameMatches (jsToLower (jsTrim "delhi")) l)).isSome = true ∧
    handleSearch "delhi" [newDelhi] false = [] :=
  ⟨by decide, by decide, search_noop_without_map "delhi" [newDelhi] (by decide) (by decide)⟩

end SkyShield
